import Mathlib

/-!
The RealSense frame producer of multi_RealSense.cpp and its configuration.

A shallow embedding of `examples/user_code/multi_RealSense.cpp`:

* `WRealSenseProducer` with its constructor and `workProducer` (lines 24-96);
* `configureWrapper` and `run` (lines 98-289).

The C++ statements are kept in source order.  Calls into libraries whose code is
not part of the file (librealsense, OpenCV, the `op::` runtime) are modelled by
the small definitions of the first section, each stating what it stands for.
-/

namespace MultiRealSense

/-! ## Collaborators -/

/-- The `cv::Mat` header built at lines 58-60: `rows`/`cols` come from `cv::Size`, `data` is the
wrapped pixel pointer (`none` is the null pointer, `some bytes` a buffer). No pixel is copied. -/
structure Mat where
  rows : Int
  cols : Int
  data : Option (List Nat)
deriving DecidableEq

/-- The default-constructed `cv::Mat()`: no rows, no columns, null data. -/
def Mat.nil : Mat := { rows := 0, cols := 0, data := none }

/-- The `cv::Mat(cv::Size(width, height), CV_8UC3, data, cv::Mat::AUTO_STEP)` constructor:
a header over user data. -/
def Mat.ofData (width height : Int) (data : Option (List Nat)) : Mat :=
  { rows := height, cols := width, data := data }

/-- The `cv::Mat::total()` of a two-dimensional matrix: `(size_t)rows * cols`, in 64-bit
unsigned arithmetic. -/
def Mat.total (m : Mat) : Nat :=
  ((m.rows % 2 ^ 64).toNat * (m.cols % 2 ^ 64).toNat) % 2 ^ 64

/-- The `cv::Mat::empty()` test: `data == 0 || total() == 0`. -/
def Mat.empty (m : Mat) : Bool :=
  m.data.isNone || m.total == 0

/-- The fields of `op::Datum` that the producer touches. -/
structure Datum where
  cvInputData : Mat
  cvOutputData : Mat
  frameNumber : Nat
deriving DecidableEq

/-- The value of `std::make_shared<op::Datum>()` before it is filled. -/
def Datum.fresh : Datum :=
  { cvInputData := Mat.nil, cvOutputData := Mat.nil, frameNumber := 0 }

/-- An `rs2::frame` as the producer reads it: `get_frame_number()` and `get_data()`. -/
structure Frame where
  frame_number : Nat
  data : Option (List Nat)
deriving DecidableEq

/-- What lines 44-45 (`pipe.wait_for_frames()` then `get_color_frame()`) give on one pull:
a colour frame, or an exception with its `what()` text. -/
inductive PullResult where
  | frame (f : Frame)
  | failure (what : String)
deriving DecidableEq

/-- The `rs2::pipeline` seen from the producer: the results its coming pulls will give.
One `wait_for_frames` consumes the head; with nothing left the wait times out, which
librealsense reports by an exception. -/
def wait_for_frames : List PullResult → PullResult × List PullResult
  | [] => (PullResult.failure "frame did not arrive in time", [])
  | r :: rest => (r, rest)

/-- The `op::Priority` levels used by the file. -/
inductive Priority where
  | High
  | Max
deriving DecidableEq

/-- Observable actions of one `workProducer` call, in the order they happen. -/
inductive Effect where
  | pull
  | newDatum
  | log (message : String) (priority : Priority)
  | stop
  | error (what : String)
deriving DecidableEq

/-- How a call leaves `workProducer`. -/
inductive Outcome where
  /-- A `return` statement ran: `none` is `nullptr`, `some v` the vector of datums. -/
  | returned (datumsPtr : Option (List Datum))
  /-- An exception left the function. -/
  | raised (what : String)
  /-- The call went through the reference `datumPtr` after the vector it points into was
  released: undefined behaviour, no result is defined. -/
  | dangling
deriving DecidableEq

/-- The datums handed to the caller, if any. -/
def Outcome.items : Outcome → Option (List Datum)
  | Outcome.returned d => d
  | Outcome.raised _ => none
  | Outcome.dangling => none

/-- Modelled from the spec: `op::error` (openpose/utilities/errorAndLog) is not in the file.
Section 7 has a configuration failure end the process with a non-zero code before any stage
starts, and `run` returns `-1` only from its `catch`, so `op::error` reports the message and
raises it as an exception. -/
def error (what : String) : Except String Unit :=
  Except.error what

/-- Modelled from the spec: `op::check` (openpose/utilities/check) is not in the file.
Section 4.3: construction fails fast when a validated invariant is violated, so `check`
calls `error` with the message when the condition is false and does nothing otherwise. -/
def check (condition : Bool) (message : String) : Except String Unit :=
  if condition then Except.ok () else error message

/-! ## WRealSenseProducer -/

/-- The producer object: its two data members (lines 94-95) and, from the `op::Worker` base,
the flag that `stop()` raises. -/
structure WRealSenseProducer where
  last_frame_number : Nat
  pipe : List PullResult
  stopSignal : Bool
deriving DecidableEq

/-- Modelled from the spec: `op::Worker::stop` is not in the file. Section 3 (StopSignal):
a shared flag that a stage sets and that is never cleared afterwards. -/
def WRealSenseProducer.stop (self : WRealSenseProducer) : WRealSenseProducer :=
  { self with stopSignal := true }

/-- The constructor (lines 27-35): `last_frame_number{0}`, then the pipeline is started.
`source` is what the started pipeline will deliver. -/
def WRealSenseProducer.new (source : List PullResult) : WRealSenseProducer :=
  { last_frame_number := 0, pipe := source, stopSignal := false }

/-- The flags read by the producer (lines 18-19). -/
structure ProducerFlags where
  color_width : Int
  color_height : Int
deriving DecidableEq

/-- The defaults of `DEFINE_int32(color_width, 1280, ...)` and `color_height`. -/
def ProducerFlags.default : ProducerFlags := { color_width := 1280, color_height := 720 }

/-- Post-state, outcome and actions of one `workProducer` call. -/
structure Step where
  producer : WRealSenseProducer
  outcome : Outcome
  effects : List Effect
deriving DecidableEq

/-- Lines 79-80: both assignments go through `datumPtr`, the reference to element 0 of the
vector owned by `datumsPtr`. When `datumsPtr` was reset (line 76) the vector is gone and the
reference dangles. -/
def fillThroughDatumPtr (datumsPtr : Option (List Datum)) (last_frame_number : Nat) : Outcome :=
  match datumsPtr with
  | none => Outcome.dangling
  | some [] => Outcome.dangling
  | some (d :: ds) =>
      Outcome.returned
        (some ({ d with cvOutputData := d.cvInputData, frameNumber := last_frame_number } :: ds))

/-- The `workProducer` method (lines 40-91). -/
def workProducer (flags : ProducerFlags) (self : WRealSenseProducer) : Step :=
  match wait_for_frames self.pipe with
  | (PullResult.failure what, rest) =>
      -- catch (lines 85-90): this->stop(); op::error(...); return nullptr;
      let self1 := { self with pipe := rest }.stop
      match error what with
      | Except.error e =>
          { producer := self1, outcome := Outcome.raised e,
            effects := [Effect.pull, Effect.stop, Effect.error what] }
      | Except.ok () =>
          { producer := self1, outcome := Outcome.returned none,
            effects := [Effect.pull, Effect.stop, Effect.error what] }
  | (PullResult.frame color_frame, rest) =>
      if color_frame.frame_number = self.last_frame_number then
        -- lines 46-54: the log and the stop are commented out
        { producer := { self with pipe := rest }, outcome := Outcome.returned none,
          effects := [Effect.pull] }
      else
        -- line 57
        let self1 := { self with pipe := rest, last_frame_number := color_frame.frame_number }
        -- lines 58-60
        let color_mat := Mat.ofData flags.color_width flags.color_height color_frame.data
        -- lines 63-69
        let datum : Datum := { Datum.fresh with cvInputData := color_mat }
        let datumsPtr : Option (List Datum) := some [datum]
        -- lines 72-77
        if datum.cvInputData.empty then
          let self2 := self1.stop
          { producer := self2,
            -- line 76 resets datumsPtr, lines 79-82 follow
            outcome := fillThroughDatumPtr none self2.last_frame_number,
            effects := [Effect.pull, Effect.newDatum,
                        Effect.log "Color frame is empty." Priority.High, Effect.stop] }
        else
          { producer := self1,
            outcome := fillThroughDatumPtr datumsPtr self1.last_frame_number,
            effects := [Effect.pull, Effect.newDatum] }

/-! ## Repeated calls -/

/-- The first `n` successive `workProducer` calls on a producer, oldest first. A call that
leaves by an exception or through the dangling reference ends the sequence: nothing is
defined after it. -/
def successiveCalls (flags : ProducerFlags) : Nat → WRealSenseProducer → List Step
  | 0, _ => []
  | n + 1, self =>
      let s := workProducer flags self
      match s.outcome with
      | Outcome.returned _ => s :: successiveCalls flags n s.producer
      | Outcome.raised _ => [s]
      | Outcome.dangling => [s]

/-- The datums handed over by a sequence of calls, in call order. -/
def producedItems (steps : List Step) : List Datum :=
  (steps.map fun s => (s.outcome.items).getD []).flatten

/-- Modelled from the spec: the input stage of the `op::` thread runtime is not in the file.
Section 4.2: `workProducer` is "called repeatedly by WorkerPipeline's input stage until it
returns None or StopSignal is set". The result lists the calls made; `none` means the fuel
ran out first. -/
def inputStage (flags : ProducerFlags) : Nat → WRealSenseProducer → Option (List Step)
  | 0, _ => none
  | fuel + 1, self =>
      let s := workProducer flags self
      if s.outcome.items.isSome && !s.producer.stopSignal then
        (inputStage flags fuel s.producer).map fun later => s :: later
      else
        some [s]

/-- The producer state after a sequence of calls that started from `self`. -/
def finalProducer : WRealSenseProducer → List Step → WRealSenseProducer
  | self, [] => self
  | _, s :: later => finalProducer s.producer later

/-- The datum that carries a frame: input and output image are the header over the frame data,
the frame number is the frame's. -/
def Frame.toDatum (flags : ProducerFlags) (f : Frame) : Datum :=
  { cvInputData := Mat.ofData flags.color_width flags.color_height f.data,
    cvOutputData := Mat.ofData flags.color_width flags.color_height f.data,
    frameNumber := f.frame_number }

/-- Section 4.2, structurally invalid frame: the image built from it is empty. -/
def Frame.invalid (flags : ProducerFlags) (f : Frame) : Bool :=
  (Mat.ofData flags.color_width flags.color_height f.data).empty

/-- Section 8: the frames that precede the first stale, invalid or failed pull, where a pull
is stale when its frame number equals the last accepted one (`last`). -/
def leadingAccepted (flags : ProducerFlags) : Nat → List PullResult → List Frame
  | _, [] => []
  | _, PullResult.failure _ :: _ => []
  | last, PullResult.frame f :: rest =>
      if f.frame_number = last ∨ f.invalid flags = true then []
      else f :: leadingAccepted flags f.frame_number rest

/-! ## configureWrapper and run -/

/-- The option groups handed to `opWrapper.configure`. -/
inductive Group where
  | Pose | Face | Hand | Extra | Output | Gui
deriving DecidableEq

/-- Calls that `configureWrapper` and `run` make into the `op::` library and the producer
constructor, recorded in the order they complete. -/
inductive Call where
  | log (message : String) (priority : Priority)
  | getTimerInit
  | newWrapper
  | setPriorityThreshold (level : Int)
  | setDefaultX
  | flagsToPoint (flag : String)
  | flagsToPoseMode
  | flagsToPoseModel
  | flagsToScaleMode
  | flagsToHeatMaps
  | flagsToHeatMapScaleMode
  | flagsToDetector (flag : String)
  | flagsToRenderMode (flag : String)
  | stringToDataFormat
  | flagsToDisplayMode
  | newProducer
  | setWorker
  | configure (group : Group)
  | disableMultiThreading
  | exec
  | printTime
deriving DecidableEq

/-- The flags that steer the control flow of `configureWrapper`; the others are only passed
on to the library. -/
structure Flags where
  logging_level : Int
  write_keypoint : String
  disable_multi_thread : Bool

/-- The library side: for each call, the `what()` of the exception it raises, or `none` when
it completes. -/
structure Library where
  raises : Call → Option String

/-- Statements of `configureWrapper` and `run`: they extend the record of completed calls and
may raise. -/
abbrev Script := ExceptT String (StateM (List Call))

/-- One library call: raises, or completes and is recorded. -/
def call (lib : Library) (c : Call) : Script Unit :=
  match lib.raises c with
  | some what => throw what
  | none => modify fun done => done ++ [c]

/-- An `op::log` line. -/
def log (message : String) (priority : Priority) : Script Unit :=
  modify fun done => done ++ [Call.log message priority]

/-- The `try` block of `configureWrapper` (lines 102-255). -/
def configureWrapperBody (flags : Flags) (lib : Library) : Script Unit := do
  -- logging_level
  liftExcept (check (decide (0 ≤ flags.logging_level ∧ flags.logging_level ≤ 255))
    "Wrong logging_level value.")
  call lib (Call.setPriorityThreshold flags.logging_level)
  call lib Call.setDefaultX
  call lib (Call.flagsToPoint "output_resolution")
  call lib (Call.flagsToPoint "net_resolution")
  call lib (Call.flagsToPoint "face_net_resolution")
  call lib (Call.flagsToPoint "hand_net_resolution")
  call lib Call.flagsToPoseMode
  call lib Call.flagsToPoseModel
  if !flags.write_keypoint.isEmpty then
    log ("Flag `write_keypoint` is deprecated and will eventually be removed."
      ++ " Please, use `write_json` instead.") Priority.Max
  call lib Call.flagsToScaleMode
  call lib Call.flagsToHeatMaps
  call lib Call.flagsToHeatMapScaleMode
  call lib (Call.flagsToDetector "face_detector")
  call lib (Call.flagsToDetector "hand_detector")
  -- Frames producer
  call lib Call.newProducer
  call lib Call.setWorker
  -- Pose
  call lib (Call.flagsToRenderMode "render_pose")
  call lib (Call.configure Group.Pose)
  -- Face
  call lib (Call.flagsToRenderMode "face_render")
  call lib (Call.configure Group.Face)
  -- Hand
  call lib (Call.flagsToRenderMode "hand_render")
  call lib (Call.configure Group.Hand)
  -- Extra
  call lib (Call.configure Group.Extra)
  -- Output
  call lib Call.stringToDataFormat
  call lib (Call.configure Group.Output)
  -- GUI
  call lib Call.flagsToDisplayMode
  call lib (Call.configure Group.Gui)
  if flags.disable_multi_thread then
    call lib Call.disableMultiThreading

/-- The `configureWrapper` function (lines 98-261): the body, and a handler that passes the
message to `op::error`. -/
def configureWrapper (flags : Flags) (lib : Library) : Script Unit :=
  tryCatch (configureWrapperBody flags lib) fun what => liftExcept (error what)

/-- The `try` block of `run` (lines 267-283). -/
def runBody (flags : Flags) (lib : Library) : Script Int := do
  log "Starting OpenPose demo..." Priority.High
  call lib Call.getTimerInit
  log "Configuring OpenPose..." Priority.High
  call lib Call.newWrapper
  configureWrapper flags lib
  log "Starting thread(s)..." Priority.High
  call lib Call.exec
  call lib Call.printTime
  return 0

/-- The `run` function (lines 263-289): the exit code and the calls that completed. -/
def run (flags : Flags) (lib : Library) : Int × List Call :=
  match (runBody flags lib).run.run [] with
  | (Except.ok code, done) => (code, done)
  | (Except.error _, done) => (-1, done)

/-- The calls completed by `configureWrapper` alone on a new wrapper, with the exception that
left it, if one did. -/
def configureWrapperAlone (flags : Flags) (lib : Library) : Except String Unit × List Call :=
  (configureWrapper flags lib).run.run []

/-- A library in which every call completes. -/
def Library.sound : Library := { raises := fun _ => none }

/-- The calls that construct the producer or install a worker or an option group. -/
def Call.installs : Call → Bool
  | Call.newProducer => true
  | Call.setWorker => true
  | Call.configure _ => true
  | _ => false

end MultiRealSense

/-! ## One call of workProducer -/

namespace MultiRealSense

/-- The call consumes exactly the head of the pipeline, whatever it delivers. -/
theorem workProducer_pipe (flags : ProducerFlags) (self : WRealSenseProducer) :
    (workProducer flags self).producer.pipe = self.pipe.tail := by
  unfold workProducer
  cases hp : self.pipe with
  | nil => simp [wait_for_frames, error, WRealSenseProducer.stop]
  | cons r rest =>
    cases r with
    | failure what => simp [wait_for_frames, error, WRealSenseProducer.stop]
    | frame f =>
      simp only [wait_for_frames]
      split_ifs <;> simp [WRealSenseProducer.stop]

/-- A stale pull: the frame number equals the stored one. -/
theorem workProducer_stale (flags : ProducerFlags) (self : WRealSenseProducer) (f : Frame)
    (rest : List PullResult) (hp : self.pipe = PullResult.frame f :: rest)
    (hn : f.frame_number = self.last_frame_number) :
    workProducer flags self =
      { producer := { self with pipe := rest }, outcome := Outcome.returned none,
        effects := [Effect.pull] } := by
  simp [workProducer, hp, wait_for_frames, hn]

/-- An accepted pull: a new frame number and a non-empty image. -/
theorem workProducer_accept (flags : ProducerFlags) (self : WRealSenseProducer) (f : Frame)
    (rest : List PullResult) (hp : self.pipe = PullResult.frame f :: rest)
    (hn : f.frame_number ≠ self.last_frame_number) (he : f.invalid flags = false) :
    workProducer flags self =
      { producer := { self with pipe := rest, last_frame_number := f.frame_number },
        outcome := Outcome.returned (some [f.toDatum flags]),
        effects := [Effect.pull, Effect.newDatum] } := by
  simp only [Frame.invalid] at he
  simp [workProducer, hp, wait_for_frames, hn, he, fillThroughDatumPtr, Frame.toDatum,
    Datum.fresh]

/-- A pull of a new frame number whose image is empty. -/
theorem workProducer_invalid (flags : ProducerFlags) (self : WRealSenseProducer) (f : Frame)
    (rest : List PullResult) (hp : self.pipe = PullResult.frame f :: rest)
    (hn : f.frame_number ≠ self.last_frame_number) (he : f.invalid flags = true) :
    workProducer flags self =
      { producer := { pipe := rest, last_frame_number := f.frame_number, stopSignal := true },
        outcome := Outcome.dangling,
        effects := [Effect.pull, Effect.newDatum,
                    Effect.log "Color frame is empty." Priority.High, Effect.stop] } := by
  simp only [Frame.invalid] at he
  simp [workProducer, hp, wait_for_frames, hn, he, fillThroughDatumPtr, Datum.fresh,
    WRealSenseProducer.stop]

/-- A failed pull: the source raised, or nothing arrived in time. -/
theorem workProducer_failure (flags : ProducerFlags) (self : WRealSenseProducer)
    (what : String) (rest : List PullResult)
    (hp : wait_for_frames self.pipe = (PullResult.failure what, rest)) :
    workProducer flags self =
      { producer := { self with pipe := rest, stopSignal := true },
        outcome := Outcome.raised what,
        effects := [Effect.pull, Effect.stop, Effect.error what] } := by
  simp [workProducer, hp, error, WRealSenseProducer.stop]

end MultiRealSense

/-! ## Claims about one call -/

namespace MultiRealSense

/-- C1, as stated, fails: a fresh producer (stored number 0, stop flag clear) that pulls a
frame numbered 0 sees a stale frame, and after the call the stop flag is still clear. -/
theorem stale_pull_does_not_stop :
    (WRealSenseProducer.new [PullResult.frame { frame_number := 0, data := some [7] }]).last_frame_number
        = 0
      ∧ (workProducer ProducerFlags.default
          (WRealSenseProducer.new
            [PullResult.frame { frame_number := 0, data := some [7] }])).producer.stopSignal
        = false := by
  decide

/-- C1, amended: on a stale pull (frame number equal to the stored one) `workProducer` does not
call `stop`: the stop flag after the call is the flag before it, and no stop action occurs. -/
theorem stale_pull_keeps_stop_flag (flags : ProducerFlags) (self : WRealSenseProducer)
    (f : Frame) (rest : List PullResult) (hp : self.pipe = PullResult.frame f :: rest)
    (hn : f.frame_number = self.last_frame_number) :
    (workProducer flags self).producer.stopSignal = self.stopSignal
      ∧ Effect.stop ∉ (workProducer flags self).effects := by
  rw [workProducer_stale flags self f rest hp hn]
  simp

/-- Witness for the amended C1: stored number 4, pulled number 4, stop flag clear before and
after. -/
theorem stale_pull_keeps_stop_flag_witness :
    (workProducer ProducerFlags.default
        { last_frame_number := 4,
          pipe := [PullResult.frame { frame_number := 4, data := some [1] }],
          stopSignal := false }).producer.stopSignal = false
      ∧ Effect.stop ∉ (workProducer ProducerFlags.default
        { last_frame_number := 4,
          pipe := [PullResult.frame { frame_number := 4, data := some [1] }],
          stopSignal := false }).effects :=
  stale_pull_keeps_stop_flag ProducerFlags.default
    { last_frame_number := 4,
      pipe := [PullResult.frame { frame_number := 4, data := some [1] }],
      stopSignal := false }
    { frame_number := 4, data := some [1] } [] rfl rfl

/-- C2: on a stale pull `workProducer` returns `nullptr`, creates no datum and leaves the stored
frame number unchanged; and two consecutive pulls that carry the same frame number never both
hand over datums. -/
theorem stale_pull_returns_nothing (flags : ProducerFlags) (self : WRealSenseProducer)
    (f : Frame) (rest : List PullResult) :
    (self.pipe = PullResult.frame f :: rest → f.frame_number = self.last_frame_number →
        (workProducer flags self).outcome = Outcome.returned none
          ∧ Effect.newDatum ∉ (workProducer flags self).effects
          ∧ (workProducer flags self).producer.last_frame_number = self.last_frame_number)
      ∧ (∀ g later, self.pipe = PullResult.frame f :: PullResult.frame g :: later →
          g.frame_number = f.frame_number →
          ¬ ((workProducer flags self).outcome.items.isSome = true
              ∧ (workProducer flags (workProducer flags self).producer).outcome.items.isSome
                  = true)) := by
  constructor
  · intro hp hn
    rw [workProducer_stale flags self f rest hp hn]
    simp
  · intro g later hp hg
    by_cases hn : f.frame_number = self.last_frame_number
    · rw [workProducer_stale flags self f _ hp hn]
      simp [Outcome.items]
    · cases he : f.invalid flags with
      | true =>
        rw [workProducer_invalid flags self f _ hp hn he]
        simp [Outcome.items]
      | false =>
        rw [workProducer_accept flags self f _ hp hn he]
        rw [workProducer_stale flags _ g later rfl hg]
        simp [Outcome.items]

/-- Witness for C2: a producer that stores 5 pulls frame 5; and a fresh producer to which the
source delivers frame 5 twice. -/
theorem stale_pull_returns_nothing_witness :
    ((workProducer ProducerFlags.default
          { last_frame_number := 5,
            pipe := [PullResult.frame { frame_number := 5, data := some [1] }],
            stopSignal := false }).outcome = Outcome.returned none
        ∧ Effect.newDatum ∉ (workProducer ProducerFlags.default
          { last_frame_number := 5,
            pipe := [PullResult.frame { frame_number := 5, data := some [1] }],
            stopSignal := false }).effects
        ∧ (workProducer ProducerFlags.default
          { last_frame_number := 5,
            pipe := [PullResult.frame { frame_number := 5, data := some [1] }],
            stopSignal := false }).producer.last_frame_number = 5)
      ∧ ¬ ((workProducer ProducerFlags.default
              (WRealSenseProducer.new
                [PullResult.frame { frame_number := 5, data := some [1] },
                 PullResult.frame { frame_number := 5, data := some [2] }])).outcome.items.isSome
              = true
            ∧ (workProducer ProducerFlags.default
                (workProducer ProducerFlags.default
                  (WRealSenseProducer.new
                    [PullResult.frame { frame_number := 5, data := some [1] },
                     PullResult.frame { frame_number := 5, data := some [2] }])).producer
                ).outcome.items.isSome = true) :=
  ⟨(stale_pull_returns_nothing ProducerFlags.default
      { last_frame_number := 5,
        pipe := [PullResult.frame { frame_number := 5, data := some [1] }],
        stopSignal := false }
      { frame_number := 5, data := some [1] } []).1 rfl rfl,
   (stale_pull_returns_nothing ProducerFlags.default
      (WRealSenseProducer.new
        [PullResult.frame { frame_number := 5, data := some [1] },
         PullResult.frame { frame_number := 5, data := some [2] }])
      { frame_number := 5, data := some [1] }
      [PullResult.frame { frame_number := 5, data := some [2] }]).2
      { frame_number := 5, data := some [2] } [] rfl rfl⟩

/-- C3, the code at a failing input: with `color_width = color_height = 0` the image built from
frame 1 is empty; the call logs, stops and resets `datumsPtr`, and then reaches lines 79-80
through the dangling `datumPtr` instead of returning `nullptr`. -/
theorem empty_frame_reaches_dangling_reference :
    workProducer { color_width := 0, color_height := 0 }
        (WRealSenseProducer.new [PullResult.frame { frame_number := 1, data := some [9, 9, 9] }])
      = { producer := { last_frame_number := 1, pipe := [], stopSignal := true },
          outcome := Outcome.dangling,
          effects := [Effect.pull, Effect.newDatum,
                      Effect.log "Color frame is empty." Priority.High, Effect.stop] } := by
  decide

/-- C4, as stated, fails: when the pull raises, the call does not return `nullptr`; the
exception raised again by `op::error` in the handler leaves `workProducer`. -/
theorem failed_pull_does_not_return :
    (workProducer ProducerFlags.default
        (WRealSenseProducer.new [PullResult.failure "device disconnected"])).outcome
        = Outcome.raised "device disconnected"
      ∧ (workProducer ProducerFlags.default
        (WRealSenseProducer.new [PullResult.failure "device disconnected"])).outcome
        ≠ Outcome.returned none := by
  decide

/-- C4, amended: when the pull raises, `workProducer` requests stop, hands no datum to its
caller, pulls exactly once (the pipeline advances by that one pull), and leaves by the exception
that `op::error` raises in the handler, so the `return nullptr` after it is not reached. -/
theorem failed_pull_stops_and_raises (flags : ProducerFlags) (self : WRealSenseProducer)
    (what : String) (rest : List PullResult)
    (hp : wait_for_frames self.pipe = (PullResult.failure what, rest)) :
    (workProducer flags self).producer.stopSignal = true
      ∧ (workProducer flags self).outcome.items = none
      ∧ (workProducer flags self).effects.count Effect.pull = 1
      ∧ (workProducer flags self).producer.pipe = rest
      ∧ (workProducer flags self).outcome = Outcome.raised what := by
  rw [workProducer_failure flags self what rest hp]
  simp [Outcome.items]

/-- Witness for the amended C4: a producer whose next pull raises. -/
theorem failed_pull_stops_and_raises_witness :
    (workProducer ProducerFlags.default
        (WRealSenseProducer.new [PullResult.failure "usb"])).producer.stopSignal = true
      ∧ (workProducer ProducerFlags.default
        (WRealSenseProducer.new [PullResult.failure "usb"])).outcome.items = none
      ∧ (workProducer ProducerFlags.default
        (WRealSenseProducer.new [PullResult.failure "usb"])).effects.count Effect.pull = 1
      ∧ (workProducer ProducerFlags.default
        (WRealSenseProducer.new [PullResult.failure "usb"])).producer.pipe = []
      ∧ (workProducer ProducerFlags.default
        (WRealSenseProducer.new [PullResult.failure "usb"])).outcome = Outcome.raised "usb" :=
  failed_pull_stops_and_raises ProducerFlags.default
    (WRealSenseProducer.new [PullResult.failure "usb"]) "usb" [] rfl

/-- C5: a pulled frame with a non-empty image and a frame number `n` different from the stored
one gives a vector with exactly one datum, whose output image equals its input image (the image
of the frame) and whose `frameNumber` is `n`; the stored number becomes `n`, and stop is not
requested. -/
theorem fresh_frame_gives_one_datum (flags : ProducerFlags) (self : WRealSenseProducer)
    (f : Frame) (rest : List PullResult) (hp : self.pipe = PullResult.frame f :: rest)
    (hn : f.frame_number ≠ self.last_frame_number)
    (he : (Mat.ofData flags.color_width flags.color_height f.data).empty = false) :
    (workProducer flags self).outcome =
        Outcome.returned (some
          [{ cvInputData := Mat.ofData flags.color_width flags.color_height f.data,
             cvOutputData := Mat.ofData flags.color_width flags.color_height f.data,
             frameNumber := f.frame_number }])
      ∧ (workProducer flags self).producer.last_frame_number = f.frame_number
      ∧ (workProducer flags self).producer.stopSignal = self.stopSignal
      ∧ Effect.stop ∉ (workProducer flags self).effects := by
  rw [workProducer_accept flags self f rest hp hn he]
  simp [Frame.toDatum]

/-- Witness for C5: stored number 2, pulled frame 3 with data, default 1280 x 720 flags. -/
theorem fresh_frame_gives_one_datum_witness :
    (workProducer ProducerFlags.default
        { last_frame_number := 2,
          pipe := [PullResult.frame { frame_number := 3, data := some [1, 2] }],
          stopSignal := false }).outcome =
        Outcome.returned (some
          [{ cvInputData := Mat.ofData 1280 720 (some [1, 2]),
             cvOutputData := Mat.ofData 1280 720 (some [1, 2]),
             frameNumber := 3 }])
      ∧ (workProducer ProducerFlags.default
        { last_frame_number := 2,
          pipe := [PullResult.frame { frame_number := 3, data := some [1, 2] }],
          stopSignal := false }).producer.last_frame_number = 3
      ∧ (workProducer ProducerFlags.default
        { last_frame_number := 2,
          pipe := [PullResult.frame { frame_number := 3, data := some [1, 2] }],
          stopSignal := false }).producer.stopSignal = false
      ∧ Effect.stop ∉ (workProducer ProducerFlags.default
        { last_frame_number := 2,
          pipe := [PullResult.frame { frame_number := 3, data := some [1, 2] }],
          stopSignal := false }).effects :=
  fresh_frame_gives_one_datum ProducerFlags.default
    { last_frame_number := 2,
      pipe := [PullResult.frame { frame_number := 3, data := some [1, 2] }],
      stopSignal := false }
    { frame_number := 3, data := some [1, 2] } [] rfl (by decide) (by decide)

end MultiRealSense

/-! ## The stored frame number and the first pull -/

namespace MultiRealSense

/-- C9, as stated, fails: with `color_width = color_height = 0` a fresh producer that pulls
frame 7 builds an empty image; no datum is handed over, yet the stored frame number has
already moved from 0 to 7 (line 57 runs before the image is examined). -/
theorem empty_frame_moves_stored_number :
    (workProducer { color_width := 0, color_height := 0 }
        (WRealSenseProducer.new
          [PullResult.frame { frame_number := 7, data := some [1] }])).outcome.items = none
      ∧ (workProducer { color_width := 0, color_height := 0 }
        (WRealSenseProducer.new
          [PullResult.frame { frame_number := 7, data := some [1] }])).producer.last_frame_number
        = 7
      ∧ (WRealSenseProducer.new
          [PullResult.frame { frame_number := 7, data := some [1] }]).last_frame_number = 0 := by
  decide

/-- C9, amended: the stored frame number after a call differs from its value before only if the
pull delivered a frame whose number differs from the stored one, and then it is that number
(line 57 stores it before the image is examined); on a stale frame and on a failed pull it is
unchanged; and every datum handed over carries the stored number. -/
theorem stored_number_changes_only_on_new_number (flags : ProducerFlags)
    (self : WRealSenseProducer) :
    ((workProducer flags self).producer.last_frame_number ≠ self.last_frame_number →
        ∃ f rest, self.pipe = PullResult.frame f :: rest
          ∧ f.frame_number ≠ self.last_frame_number
          ∧ (workProducer flags self).producer.last_frame_number = f.frame_number)
      ∧ (∀ f rest, self.pipe = PullResult.frame f :: rest →
          f.frame_number = self.last_frame_number →
          (workProducer flags self).producer.last_frame_number = self.last_frame_number)
      ∧ (∀ what rest, wait_for_frames self.pipe = (PullResult.failure what, rest) →
          (workProducer flags self).producer.last_frame_number = self.last_frame_number)
      ∧ (∀ v, (workProducer flags self).outcome = Outcome.returned (some v) →
          ∀ d ∈ v, d.frameNumber = (workProducer flags self).producer.last_frame_number) := by
  refine ⟨?_, ?_, ?_, ?_⟩
  · intro hne
    cases hp : self.pipe with
    | nil =>
      exact absurd (by rw [workProducer_failure flags self _ [] (by rw [hp]; rfl)]) hne
    | cons r rest =>
      cases r with
      | failure what =>
        exact absurd (by rw [workProducer_failure flags self what rest (by rw [hp]; rfl)]) hne
      | frame f =>
        by_cases hn : f.frame_number = self.last_frame_number
        · exact absurd (by rw [workProducer_stale flags self f rest hp hn]) hne
        · refine ⟨f, rest, rfl, hn, ?_⟩
          cases he : f.invalid flags with
          | true => rw [workProducer_invalid flags self f rest hp hn he]
          | false => rw [workProducer_accept flags self f rest hp hn he]
  · intro f rest hp hn
    rw [workProducer_stale flags self f rest hp hn]
  · intro what rest hp
    rw [workProducer_failure flags self what rest hp]
  · intro v hv d hd
    cases hp : self.pipe with
    | nil =>
      rw [workProducer_failure flags self _ [] (by rw [hp]; rfl)] at hv
      simp at hv
    | cons r rest =>
      cases r with
      | failure what =>
        rw [workProducer_failure flags self what rest (by rw [hp]; rfl)] at hv
        simp at hv
      | frame f =>
        by_cases hn : f.frame_number = self.last_frame_number
        · rw [workProducer_stale flags self f rest hp hn] at hv
          simp at hv
        · cases he : f.invalid flags with
          | true =>
            rw [workProducer_invalid flags self f rest hp hn he] at hv
            simp at hv
          | false =>
            rw [workProducer_accept flags self f rest hp hn he] at hv ⊢
            simp at hv
            subst hv
            simp at hd
            subst hd
            rfl

/-- Witness for the amended C9: a fresh producer pulls frame 3 with data: the stored number
changes, and the second, third and fourth parts are taken at a stale pull, a failed pull and the
returned vector. -/
theorem stored_number_changes_only_on_new_number_witness :
    (∃ f rest,
        (WRealSenseProducer.new [PullResult.frame { frame_number := 3, data := some [1] }]).pipe
            = PullResult.frame f :: rest
          ∧ f.frame_number ≠ 0
          ∧ (workProducer ProducerFlags.default
              (WRealSenseProducer.new
                [PullResult.frame { frame_number := 3, data := some [1] }])
              ).producer.last_frame_number = f.frame_number)
      ∧ (workProducer ProducerFlags.default
          (WRealSenseProducer.new
            [PullResult.frame { frame_number := 0, data := some [1] }])
          ).producer.last_frame_number = 0
      ∧ (workProducer ProducerFlags.default
          (WRealSenseProducer.new [PullResult.failure "usb"])).producer.last_frame_number = 0
      ∧ (∀ d ∈ [Frame.toDatum ProducerFlags.default { frame_number := 3, data := some [1] }],
          d.frameNumber = (workProducer ProducerFlags.default
              (WRealSenseProducer.new
                [PullResult.frame { frame_number := 3, data := some [1] }])
              ).producer.last_frame_number) :=
  ⟨(stored_number_changes_only_on_new_number ProducerFlags.default
      (WRealSenseProducer.new [PullResult.frame { frame_number := 3, data := some [1] }])).1
      (by decide),
   (stored_number_changes_only_on_new_number ProducerFlags.default
      (WRealSenseProducer.new [PullResult.frame { frame_number := 0, data := some [1] }])).2.1
      { frame_number := 0, data := some [1] } [] rfl rfl,
   (stored_number_changes_only_on_new_number ProducerFlags.default
      (WRealSenseProducer.new [PullResult.failure "usb"])).2.2.1 "usb" [] rfl,
   (stored_number_changes_only_on_new_number ProducerFlags.default
      (WRealSenseProducer.new [PullResult.frame { frame_number := 3, data := some [1] }])).2.2.2
      [Frame.toDatum ProducerFlags.default { frame_number := 3, data := some [1] }]
      (by decide)⟩

/-- C10: a freshly constructed producer stores frame number 0, so its first pulled frame yields
datums exactly when its image is non-empty and its number is not 0; a first frame numbered 0 is
taken as stale and `nullptr` is returned. -/
theorem first_pull_accepted_iff (flags : ProducerFlags) (f : Frame) (rest : List PullResult) :
    (WRealSenseProducer.new (PullResult.frame f :: rest)).last_frame_number = 0
      ∧ ((workProducer flags
            (WRealSenseProducer.new (PullResult.frame f :: rest))).outcome.items.isSome = true
          ↔ (Mat.ofData flags.color_width flags.color_height f.data).empty = false
              ∧ f.frame_number ≠ 0)
      ∧ (f.frame_number = 0 →
          (workProducer flags (WRealSenseProducer.new (PullResult.frame f :: rest))).outcome
            = Outcome.returned none) := by
  refine ⟨rfl, ?_, ?_⟩
  · by_cases hn : f.frame_number = 0
    · rw [workProducer_stale flags _ f rest rfl (by simpa [WRealSenseProducer.new] using hn)]
      simp [Outcome.items, hn]
    · cases he : f.invalid flags with
      | true =>
        rw [workProducer_invalid flags _ f rest rfl
          (by simpa [WRealSenseProducer.new] using hn) he]
        simp only [Frame.invalid] at he
        simp [Outcome.items, he]
      | false =>
        rw [workProducer_accept flags _ f rest rfl
          (by simpa [WRealSenseProducer.new] using hn) he]
        simp only [Frame.invalid] at he
        simp [Outcome.items, he, hn]
  · intro hn
    rw [workProducer_stale flags _ f rest rfl (by simpa [WRealSenseProducer.new] using hn)]

/-- Witness for C10: the first frame of a fresh producer is numbered 0. -/
theorem first_pull_accepted_iff_witness :
    (workProducer ProducerFlags.default
        (WRealSenseProducer.new
          [PullResult.frame { frame_number := 0, data := some [1] }])).outcome
      = Outcome.returned none :=
  (first_pull_accepted_iff ProducerFlags.default { frame_number := 0, data := some [1] } []).2.2
    rfl

end MultiRealSense

/-! ## Configuration -/

namespace MultiRealSense

/-- With a logging level outside 0..255 the body of `configureWrapper` raises at its first
statement, before any call is recorded. -/
theorem configureWrapper_out_of_range (flags : Flags) (lib : Library)
    (h : ¬ (0 ≤ flags.logging_level ∧ flags.logging_level ≤ 255)) (done : List Call) :
    (configureWrapper flags lib).run.run done
      = (Except.error "Wrong logging_level value.", done) := by
  simp [configureWrapper, configureWrapperBody, check, error, h, tryCatch, tryCatchThe,
    MonadExceptOf.tryCatch, ExceptT.tryCatch, liftExcept, ExceptT.run, ExceptT.mk,
    bind, ExceptT.bind, ExceptT.bindCont, StateT.bind, StateT.run, throw, throwThe,
    MonadExceptOf.throw, pure, StateT.pure, ExceptT.pure]

/-- With a logging level outside 0..255 `run` ends in its handler: the exit code is `-1` and
the calls completed are among the two log lines, the timer and the wrapper construction. -/
theorem run_out_of_range (flags : Flags) (lib : Library)
    (h : ¬ (0 ≤ flags.logging_level ∧ flags.logging_level ≤ 255)) :
    (run flags lib).1 = -1
      ∧ ∀ c ∈ (run flags lib).2,
          c = Call.log "Starting OpenPose demo..." Priority.High
            ∨ c = Call.getTimerInit
            ∨ c = Call.log "Configuring OpenPose..." Priority.High
            ∨ c = Call.newWrapper := by
  have hc := configureWrapper_out_of_range flags lib h
  simp only [ExceptT.run, StateT.run] at hc
  unfold run runBody
  cases h1 : lib.raises Call.getTimerInit <;> cases h2 : lib.raises Call.newWrapper <;>
    simp [call, log, h1, h2, hc, ExceptT.run, ExceptT.mk,
      bind, ExceptT.bind, ExceptT.bindCont, StateT.bind, StateT.run, throw, throwThe,
      MonadExceptOf.throw, pure, StateT.pure, ExceptT.pure, modify, modifyGet,
      MonadStateOf.modifyGet, StateT.modifyGet, liftM, monadLift, MonadLift.monadLift,
      ExceptT.lift, StateT.map, Functor.map, ExceptT.map]

end MultiRealSense

namespace MultiRealSense

/-- With a logging level in 0..255 and a library whose calls all complete, `configureWrapper`
completes. -/
theorem configureWrapper_in_range (flags : Flags)
    (h : 0 ≤ flags.logging_level ∧ flags.logging_level ≤ 255) :
    (configureWrapperAlone flags Library.sound).1 = Except.ok () := by
  unfold configureWrapperAlone configureWrapper configureWrapperBody
  cases h1 : flags.write_keypoint.isEmpty <;> cases h2 : flags.disable_multi_thread <;>
    simp [call, log, h1, h2, h, check, Library.sound, tryCatch, tryCatchThe,
      MonadExceptOf.tryCatch, ExceptT.tryCatch, liftExcept, ExceptT.run, ExceptT.mk,
      bind, ExceptT.bind, ExceptT.bindCont, StateT.bind, StateT.run, throw, throwThe,
      MonadExceptOf.throw, pure, StateT.pure, ExceptT.pure, modify, modifyGet,
      MonadStateOf.modifyGet, StateT.modifyGet, liftM, monadLift, MonadLift.monadLift,
      ExceptT.lift, StateT.map, Functor.map, ExceptT.map]

/-- C8: the logging-level validation of `configureWrapper` passes exactly for levels 0..255
(with a library whose calls all complete, `configureWrapper` completes iff the level is in
range); for every level outside the range and every library, `configureWrapper` raises before
any call is made, so the producer is not constructed and no worker or option group is installed,
`exec` is never called, and `run` returns a non-zero code. -/
theorem logging_level_fail_fast (flags : Flags) (lib : Library) :
    ((check (decide (0 ≤ flags.logging_level ∧ flags.logging_level ≤ 255))
          "Wrong logging_level value." = Except.ok ()
        ↔ 0 ≤ flags.logging_level ∧ flags.logging_level ≤ 255)
      ∧ ((configureWrapperAlone flags Library.sound).1 = Except.ok ()
        ↔ 0 ≤ flags.logging_level ∧ flags.logging_level ≤ 255))
      ∧ (¬ (0 ≤ flags.logging_level ∧ flags.logging_level ≤ 255) →
          configureWrapperAlone flags lib = (Except.error "Wrong logging_level value.", [])
            ∧ (∀ c ∈ (run flags lib).2, c.installs = false)
            ∧ Call.exec ∉ (run flags lib).2
            ∧ (run flags lib).1 ≠ 0) := by
  refine ⟨⟨?_, ?_⟩, ?_⟩
  · by_cases h : 0 ≤ flags.logging_level ∧ flags.logging_level ≤ 255
    · simp [check, h]
    · simp [check, error, h]
  · constructor
    · intro hok
      by_contra h
      have hc := configureWrapper_out_of_range flags Library.sound h []
      unfold configureWrapperAlone at hok
      rw [hc] at hok
      simp at hok
    · exact configureWrapper_in_range flags
  · intro h
    obtain ⟨hcode, hcalls⟩ := run_out_of_range flags lib h
    refine ⟨configureWrapper_out_of_range flags lib h [], ?_, ?_, ?_⟩
    · intro c hc
      rcases hcalls c hc with rfl | rfl | rfl | rfl <;> rfl
    · intro hc
      rcases hcalls _ hc with h1 | h1 | h1 | h1 <;> simp at h1
    · rw [hcode]; decide

/-- Witness for C8: logging level 300 with a library whose calls all complete. -/
theorem logging_level_fail_fast_witness :
    configureWrapperAlone
        { logging_level := 300, write_keypoint := "", disable_multi_thread := false }
        Library.sound = (Except.error "Wrong logging_level value.", [])
      ∧ (∀ c ∈ (run { logging_level := 300, write_keypoint := "", disable_multi_thread := false }
            Library.sound).2, c.installs = false)
      ∧ Call.exec ∉ (run
          { logging_level := 300, write_keypoint := "", disable_multi_thread := false }
          Library.sound).2
      ∧ (run { logging_level := 300, write_keypoint := "", disable_multi_thread := false }
          Library.sound).1 ≠ 0 :=
  (logging_level_fail_fast
    { logging_level := 300, write_keypoint := "", disable_multi_thread := false }
    Library.sound).2 (by decide)

end MultiRealSense

/-! ## Sequences of calls -/

namespace MultiRealSense

/-- The datums of a sequence of calls: those of the first call, then those of the others. -/
theorem producedItems_cons (s : Step) (later : List Step) :
    producedItems (s :: later) = (s.outcome.items).getD [] ++ producedItems later := by
  simp [producedItems]

/-- Frame numbers of the datums produced by successive calls on frames whose numbers do not
decrease and are at least the stored number: strictly increasing, above the stored number, and
a subsequence of the pulled numbers. -/
theorem successiveCalls_numbers (flags : ProducerFlags) (fs : List Frame) :
    ∀ (n : Nat) (self : WRealSenseProducer),
      self.pipe = fs.map PullResult.frame →
      (∀ f ∈ fs, self.last_frame_number ≤ f.frame_number) →
      (fs.map fun f => f.frame_number).Pairwise (fun a b => a ≤ b) →
      ((producedItems (successiveCalls flags n self)).map fun d => d.frameNumber).Pairwise
          (fun a b => a < b)
        ∧ (∀ x ∈ (producedItems (successiveCalls flags n self)).map fun d => d.frameNumber,
            self.last_frame_number < x)
        ∧ ((producedItems (successiveCalls flags n self)).map fun d => d.frameNumber).Sublist
            (fs.map fun f => f.frame_number) := by
  induction fs with
  | nil =>
    intro n self hp _ _
    cases n with
    | zero => simp [successiveCalls, producedItems]
    | succ n =>
      have hw : wait_for_frames self.pipe
          = (PullResult.failure "frame did not arrive in time", []) := by
        rw [hp]; rfl
      simp [successiveCalls, workProducer_failure flags self _ _ hw, producedItems,
        Outcome.items]
  | cons f fs ih =>
    intro n self hp hlow hsorted
    cases n with
    | zero => simp [successiveCalls, producedItems]
    | succ n =>
      have hp1 : self.pipe = PullResult.frame f :: fs.map PullResult.frame := by
        rw [hp]; rfl
      rw [List.map_cons, List.pairwise_cons] at hsorted
      obtain ⟨hhead, htail⟩ := hsorted
      by_cases hn : f.frame_number = self.last_frame_number
      · -- stale: nothing produced, same stored number
        have hstep := workProducer_stale flags self f _ hp1 hn
        have hrec := ih n { self with pipe := fs.map PullResult.frame } rfl
          (fun g hg => hlow g (List.mem_cons_of_mem _ hg)) htail
        simp only [successiveCalls, hstep, producedItems_cons, Outcome.items, Option.getD_none,
          List.nil_append]
        exact ⟨hrec.1, hrec.2.1, List.Sublist.cons _ hrec.2.2⟩
      · cases he : f.invalid flags with
        | true =>
          have hstep := workProducer_invalid flags self f _ hp1 hn he
          simp [successiveCalls, hstep, producedItems, Outcome.items]
        | false =>
          have hstep := workProducer_accept flags self f _ hp1 hn he
          have hlt : self.last_frame_number < f.frame_number :=
            lt_of_le_of_ne (hlow f (List.mem_cons_self _ _)) (Ne.symm hn)
          have hrec := ih n
            { self with pipe := fs.map PullResult.frame, last_frame_number := f.frame_number }
            rfl
            (fun g hg => hhead g.frame_number (List.mem_map_of_mem _ hg)) htail
          simp only [successiveCalls, hstep, producedItems_cons, Outcome.items,
            Option.getD_some, List.singleton_append, List.map_cons, List.pairwise_cons,
            List.mem_cons, Frame.toDatum]
          refine ⟨⟨fun x hx => hrec.2.1 x hx, hrec.1⟩, ?_, ?_⟩
          · intro x hx
            rcases hx with rfl | hx
            · exact hlt
            · exact lt_trans hlt (hrec.2.1 x hx)
          · exact List.Sublist.cons₂ _ hrec.2.2

/-- C6: for every finite sequence of pulled frames with non-decreasing frame numbers, the
datums returned by successive `workProducer` calls on a fresh producer have strictly increasing
frame numbers (so no number occurs twice), and these numbers follow the order in which the
frames were pulled (they form a subsequence of the pulled numbers). -/
theorem produced_numbers_strictly_increase (flags : ProducerFlags) (fs : List Frame)
    (n : Nat)
    (h : (fs.map fun f => f.frame_number).Pairwise (fun a b => a ≤ b)) :
    ((producedItems (successiveCalls flags n
          (WRealSenseProducer.new (fs.map PullResult.frame)))).map
        fun d => d.frameNumber).Pairwise (fun a b => a < b)
      ∧ ((producedItems (successiveCalls flags n
          (WRealSenseProducer.new (fs.map PullResult.frame)))).map
        fun d => d.frameNumber).Nodup
      ∧ ((producedItems (successiveCalls flags n
          (WRealSenseProducer.new (fs.map PullResult.frame)))).map
        fun d => d.frameNumber).Sublist (fs.map fun f => f.frame_number) := by
  have key := successiveCalls_numbers flags fs n
    (WRealSenseProducer.new (fs.map PullResult.frame)) rfl
    (fun f _ => Nat.zero_le _) h
  exact ⟨key.1, key.1.imp (fun hab => Nat.ne_of_lt hab), key.2.2⟩

/-- Witness for C6: frames numbered 1, 2, 2, 3 pulled by four calls. -/
theorem produced_numbers_strictly_increase_witness :
    ((producedItems (successiveCalls ProducerFlags.default 4
          (WRealSenseProducer.new
            ([({ frame_number := 1, data := some [1] } : Frame),
              { frame_number := 2, data := some [1] },
              { frame_number := 2, data := some [1] },
              { frame_number := 3, data := some [1] }].map PullResult.frame)))).map
        fun d => d.frameNumber).Pairwise (fun a b => a < b)
      ∧ ((producedItems (successiveCalls ProducerFlags.default 4
          (WRealSenseProducer.new
            ([({ frame_number := 1, data := some [1] } : Frame),
              { frame_number := 2, data := some [1] },
              { frame_number := 2, data := some [1] },
              { frame_number := 3, data := some [1] }].map PullResult.frame)))).map
        fun d => d.frameNumber).Nodup
      ∧ ((producedItems (successiveCalls ProducerFlags.default 4
          (WRealSenseProducer.new
            ([({ frame_number := 1, data := some [1] } : Frame),
              { frame_number := 2, data := some [1] },
              { frame_number := 2, data := some [1] },
              { frame_number := 3, data := some [1] }].map PullResult.frame)))).map
        fun d => d.frameNumber).Sublist
          ([({ frame_number := 1, data := some [1] } : Frame),
              { frame_number := 2, data := some [1] },
              { frame_number := 2, data := some [1] },
              { frame_number := 3, data := some [1] }].map fun f => f.frame_number) :=
  produced_numbers_strictly_increase ProducerFlags.default
    [{ frame_number := 1, data := some [1] }, { frame_number := 2, data := some [1] },
     { frame_number := 2, data := some [1] }, { frame_number := 3, data := some [1] }] 4
    (by decide)

end MultiRealSense

/-! ## The input stage loop -/

namespace MultiRealSense

/-- The loop on a producer whose stop flag is clear, with fuel for one call more than the
pipeline holds: it ends, the datums are those of the leading accepted frames, it makes one call
more than it accepts frames, and the pulls after the one that ended it stay in the pipeline. -/
theorem inputStage_spec (flags : ProducerFlags) (pulls : List PullResult) :
    ∀ (fuel : Nat) (self : WRealSenseProducer),
      self.pipe = pulls → self.stopSignal = false → pulls.length + 1 ≤ fuel →
      ∃ steps, inputStage flags fuel self = some steps
        ∧ producedItems steps
            = (leadingAccepted flags self.last_frame_number pulls).map (Frame.toDatum flags)
        ∧ steps.length = (leadingAccepted flags self.last_frame_number pulls).length + 1
        ∧ (finalProducer self steps).pipe
            = pulls.drop ((leadingAccepted flags self.last_frame_number pulls).length + 1) := by
  induction pulls with
  | nil =>
    intro fuel self hp _ hfuel
    obtain ⟨k, rfl⟩ : ∃ k, fuel = k + 1 := ⟨fuel - 1, by omega⟩
    have hw : wait_for_frames self.pipe
        = (PullResult.failure "frame did not arrive in time", []) := by
      rw [hp]; rfl
    refine ⟨[workProducer flags self], ?_, ?_, ?_, ?_⟩
    · simp [inputStage, workProducer_failure flags self _ _ hw, Outcome.items]
    · simp [producedItems, workProducer_failure flags self _ _ hw, Outcome.items,
        leadingAccepted]
    · simp [leadingAccepted]
    · simp [finalProducer, workProducer_pipe, hp]
  | cons r rest ih =>
    intro fuel self hp hstop hfuel
    obtain ⟨k, rfl⟩ : ∃ k, fuel = k + 1 := ⟨fuel - 1, by omega⟩
    cases r with
    | failure what =>
      have hw : wait_for_frames self.pipe = (PullResult.failure what, rest) := by
        rw [hp]; rfl
      refine ⟨[workProducer flags self], ?_, ?_, ?_, ?_⟩
      · simp [inputStage, workProducer_failure flags self _ _ hw, Outcome.items]
      · simp [producedItems, workProducer_failure flags self _ _ hw, Outcome.items,
          leadingAccepted]
      · simp [leadingAccepted]
      · simp [finalProducer, workProducer_pipe, hp, leadingAccepted]
    | frame f =>
      by_cases hn : f.frame_number = self.last_frame_number
      · have hstep := workProducer_stale flags self f rest hp hn
        refine ⟨[workProducer flags self], ?_, ?_, ?_, ?_⟩
        · simp [inputStage, hstep, Outcome.items]
        · simp [producedItems, hstep, Outcome.items, leadingAccepted, hn]
        · simp [leadingAccepted, hn]
        · simp [finalProducer, workProducer_pipe, hp, leadingAccepted, hn]
      · cases he : f.invalid flags with
        | true =>
          have hstep := workProducer_invalid flags self f rest hp hn he
          refine ⟨[workProducer flags self], ?_, ?_, ?_, ?_⟩
          · simp [inputStage, hstep, Outcome.items]
          · simp [producedItems, hstep, Outcome.items, leadingAccepted, he]
          · simp [leadingAccepted, he]
          · simp [finalProducer, workProducer_pipe, hp, leadingAccepted, he]
        | false =>
          have hstep := workProducer_accept flags self f rest hp hn he
          obtain ⟨later, hrun, hitems, hlen, hpipe⟩ := ih k
            { self with pipe := rest, last_frame_number := f.frame_number } rfl hstop
            (by simp only [List.length_cons] at hfuel; omega)
          refine ⟨workProducer flags self :: later, ?_, ?_, ?_, ?_⟩
          · simp only [hstop] at hrun
            simp [inputStage, hstep, Outcome.items, hstop, hrun]
          · rw [producedItems_cons, hitems]
            simp [hstep, Outcome.items, leadingAccepted, hn, he]
          · simp [hlen, leadingAccepted, hn, he]
          · simp only [finalProducer, hstep, hpipe]
            simp [leadingAccepted, hn, he]

/-- C7, as stated, fails: for a source of non-empty frames numbered 1, 2, 2, 3 the loop ends at
the repeated 2, but the stop flag is clear when it ends: the pipeline has not been stopped. -/
theorem repeated_frame_ends_loop_without_stop :
    (inputStage ProducerFlags.default 5
        (WRealSenseProducer.new
          [PullResult.frame { frame_number := 1, data := some [1] },
           PullResult.frame { frame_number := 2, data := some [1] },
           PullResult.frame { frame_number := 2, data := some [1] },
           PullResult.frame { frame_number := 3, data := some [1] }])).map
      (fun steps => (finalProducer (WRealSenseProducer.new []) steps).stopSignal)
      = some false := by
  decide

/-- C7, amended: when `workProducer` is called repeatedly on a fresh producer until it first
hands over nothing or stop is set, the loop ends, the datums produced are exactly those of the
frames preceding the first stale, invalid or failed pull, and nothing after that pull is
requested from the source (one call per accepted frame and one more; the later pulls stay in
the pipeline). For non-empty frames numbered 1, 2, 2, 3: exactly two datums, numbered 1 and 2,
three calls, frame 3 still in the pipeline, and the loop ends because the repeated 2 returned
`nullptr`, with the stop flag clear. -/
theorem input_stage_takes_leading_frames (flags : ProducerFlags) (source : List PullResult)
    (fuel : Nat) (hfuel : source.length + 1 ≤ fuel) :
    (∃ steps, inputStage flags fuel (WRealSenseProducer.new source) = some steps
        ∧ producedItems steps = (leadingAccepted flags 0 source).map (Frame.toDatum flags)
        ∧ steps.length = (leadingAccepted flags 0 source).length + 1
        ∧ (finalProducer (WRealSenseProducer.new source) steps).pipe
            = source.drop ((leadingAccepted flags 0 source).length + 1))
      ∧ (inputStage ProducerFlags.default 5
          (WRealSenseProducer.new
            [PullResult.frame { frame_number := 1, data := some [1] },
             PullResult.frame { frame_number := 2, data := some [1] },
             PullResult.frame { frame_number := 2, data := some [1] },
             PullResult.frame { frame_number := 3, data := some [1] }])).map
          (fun steps =>
            ((producedItems steps).map (fun d => d.frameNumber), steps.length,
              finalProducer (WRealSenseProducer.new []) steps))
          = some ([1, 2], 3,
              { last_frame_number := 2,
                pipe := [PullResult.frame { frame_number := 3, data := some [1] }],
                stopSignal := false }) := by
  refine ⟨?_, by decide⟩
  exact inputStage_spec flags source fuel (WRealSenseProducer.new source) rfl rfl hfuel

/-- Witness for the amended C7: the source delivers frame 1 and then fails. -/
theorem input_stage_takes_leading_frames_witness :
    ∃ steps, inputStage ProducerFlags.default 3
          (WRealSenseProducer.new
            [PullResult.frame { frame_number := 1, data := some [1] },
             PullResult.failure "usb"]) = some steps
        ∧ producedItems steps
            = (leadingAccepted ProducerFlags.default 0
                [PullResult.frame { frame_number := 1, data := some [1] },
                 PullResult.failure "usb"]).map (Frame.toDatum ProducerFlags.default)
        ∧ steps.length
            = (leadingAccepted ProducerFlags.default 0
                [PullResult.frame { frame_number := 1, data := some [1] },
                 PullResult.failure "usb"]).length + 1
        ∧ (finalProducer
              (WRealSenseProducer.new
                [PullResult.frame { frame_number := 1, data := some [1] },
                 PullResult.failure "usb"]) steps).pipe
            = [PullResult.frame { frame_number := 1, data := some [1] },
                 PullResult.failure "usb"].drop
                ((leadingAccepted ProducerFlags.default 0
                  [PullResult.frame { frame_number := 1, data := some [1] },
                   PullResult.failure "usb"]).length + 1) :=
  (input_stage_takes_leading_frames ProducerFlags.default
    [PullResult.frame { frame_number := 1, data := some [1] }, PullResult.failure "usb"] 3
    (by decide)).1

end MultiRealSense
